import Mathlib

/-!
Verification of the retry/fee-escalation state machine of `app.py`
(stellar_xlm_bot): a recurring payment-disbursement bot.

Shallow embedding. The Horizon network is modelled as a script: a list of
per-attempt environments, each holding the network-suggested base fee
(`server.fetch_base_fee()`) and the outcome of that submission attempt
(either a response dict returned by `server.submit_transaction`, or a
raised exception). `send_payment` consumes the script one element per
attempt; an exhausted script means the run did not terminate within the
scripted responses, modelled as `none`. Python floats are modelled as
exact rationals; a balance string that `float()` rejects is modelled as
`none`.
-/

namespace XlmBot

/-- `e.extras['result_codes']` when `extras` is a dict holding one:
the transaction-level result code, and the per-operation codes. -/
structure ResultCodes where
  transaction : Option String
  operations : Option (List String)
deriving DecidableEq, Repr

/-- An exception raised during the try-block of `send_payment`.
`status` is `e.status` when the attribute exists; `resultCodes` is
`e.extras['result_codes']` when `e.extras` is present, not `None`, and the
entry is a dict; `detail` is `str(e)` as interpolated into the log line. -/
structure StellarError where
  status : Option Nat
  resultCodes : Option ResultCodes
  detail : String
deriving DecidableEq, Repr

/-- A response dict returned by `server.submit_transaction` without raising.
`successful` is `response.get('successful', False)` (missing key reads as
`false`); `raw` is the Python repr of the dict as interpolated by
`f"Transaction response: {response}"`. The code never inspects
`resultCodes` of a returned response; the field is carried so claims about
such responses can be stated. -/
structure TxResponse where
  successful : Bool
  resultCodes : Option ResultCodes
  raw : String
deriving DecidableEq, Repr

/-- What one submission attempt does: the network either returns a response
dict or raises. -/
inductive AttemptResult where
  | response (r : TxResponse)
  | raised (e : StellarError)
deriving DecidableEq, Repr

/-- The environment of one attempt: the fee `server.fetch_base_fee()`
suggests, and the attempt's outcome. -/
structure AttemptEnv where
  networkBaseFee : Nat
  result : AttemptResult
deriving DecidableEq, Repr

/-- One line handed to the logging sink by `log_result`:
`f"{now} - Transaction to {destination} for {amount} XLM: "` followed by
`"Success"` or `f"Failed - {message}"`. The timestamp is not modelled. -/
structure LogEntry where
  destination : String
  amount : ℚ
  success : Bool
  message : String
deriving DecidableEq, Repr

/-- `e.extras['result_codes'].get('transaction')` behind the attribute and
dict checks of the `elif` chain; `none` when any check fails. -/
def txCode (e : StellarError) : Option String :=
  match e.resultCodes with
  | some rc => rc.transaction
  | none => none

/-- The guard `e.extras['result_codes'].get('operations') and len(...) > 0
and ...[0] == "op_underfunded"`: the operations list is present, truthy
(nonempty), and its first element is `"op_underfunded"`. -/
def opsHeadUnderfunded (e : StellarError) : Bool :=
  match e.resultCodes with
  | some rc =>
    match rc.operations with
    | some ops => ops.head? == some "op_underfunded"
    | none => false
  | none => false

/-- The action each branch of the `except` chain takes. Retry actions also
record the code's sleep: `retry504` sleeps 5 seconds, the others 1 second;
`retryBadSeq` reloads the account (every attempt reloads it anyway). -/
inductive Action where
  | retry504
  | retryBadSeq
  | retryTooLate
  | retryDoubleFee
  | terminalCongestion
  | terminalUnderfunded
  | terminalOther (detail : String)
deriving DecidableEq, Repr

/-- The `except` chain of `send_payment` (app.py lines 100-149), as a pure
classifier: conditions tested in source order, first match wins. -/
def classify (e : StellarError) (min_gas_fee : Nat) : Action :=
  if e.status = some 504 then .retry504
  else if txCode e = some "tx_bad_seq" then .retryBadSeq
  else if txCode e = some "tx_too_late" then .retryTooLate
  else if txCode e = some "tx_insufficient_fee" then
    if min_gas_fee < 2000 then .retryDoubleFee else .terminalCongestion
  else if txCode e = some "tx_failed" ∧ opsHeadUnderfunded e = true then
    .terminalUnderfunded
  else .terminalOther e.detail

/-- Message logged when the fee cap stops escalation (app.py line 134). -/
def congestionMsg : String :=
  "Transaction Failed: Network is too busy at this time. Please try again this transaction at further time."

/-- Message logged on `tx_failed` with first operation `op_underfunded`
(app.py line 145). -/
def underfundedMsg : String :=
  "Transaction failed: XLM amount is insufficient in distribution account."

/-- Final resolved outcome of a terminating `send_payment` call. -/
inductive Outcome where
  | success
  | failure (message : String)
deriving DecidableEq, Repr

/-- Trace of a terminating `send_payment` call: the sink entries it wrote,
the `min_gas_fee` parameter at each attempt, the `base_fee`
(`max(fetch_base_fee(), min_gas_fee)`) applied at each attempt, and the
final outcome. -/
structure SendResult where
  logs : List LogEntry
  minFees : List Nat
  feesApplied : List Nat
  outcome : Outcome
deriving DecidableEq, Repr

/-- Record one more (earlier) attempt in front of a trace. -/
def prependAttempt (m fee : Nat) (r : SendResult) : SendResult :=
  { r with minFees := m :: r.minFees, feesApplied := fee :: r.feesApplied }

/-- `send_payment(log_filename, destination_address, amount, min_gas_fee=100)`
(app.py lines 66-149) over a scripted network. Each attempt loads the
account, applies `base_fee = max(server.fetch_base_fee(), min_gas_fee)`,
builds, signs and submits. A returned response is logged terminally
(success or `Transaction response: ...`); a raised exception goes through
the `except` chain: the 504, `tx_bad_seq` and `tx_too_late` branches
recurse WITHOUT the `min_gas_fee` argument, so the fee parameter falls
back to its default 100; the `tx_insufficient_fee` branch below the 2000
cap recurses with `2 * min_gas_fee`; the remaining branches log terminally.
`none` means the script ran out before the call terminated. -/
def send_payment (dest : String) (amount : ℚ) :
    List AttemptEnv → Nat → Option SendResult
  | [], _ => none
  | env :: rest, min_gas_fee =>
    let base_fee := max env.networkBaseFee min_gas_fee
    match env.result with
    | .response r =>
      if r.successful then
        some ⟨[⟨dest, amount, true, ""⟩], [min_gas_fee], [base_fee], .success⟩
      else
        some ⟨[⟨dest, amount, false, "Transaction response: " ++ r.raw⟩],
          [min_gas_fee], [base_fee],
          .failure ("Transaction response: " ++ r.raw)⟩
    | .raised e =>
      match classify e min_gas_fee with
      | .retry504 =>
        (send_payment dest amount rest 100).map (prependAttempt min_gas_fee base_fee)
      | .retryBadSeq =>
        (send_payment dest amount rest 100).map (prependAttempt min_gas_fee base_fee)
      | .retryTooLate =>
        (send_payment dest amount rest 100).map (prependAttempt min_gas_fee base_fee)
      | .retryDoubleFee =>
        (send_payment dest amount rest (2 * min_gas_fee)).map
          (prependAttempt min_gas_fee base_fee)
      | .terminalCongestion =>
        some ⟨[⟨dest, amount, false, congestionMsg⟩], [min_gas_fee], [base_fee],
          .failure congestionMsg⟩
      | .terminalUnderfunded =>
        some ⟨[⟨dest, amount, false, underfundedMsg⟩], [min_gas_fee], [base_fee],
          .failure underfundedMsg⟩
      | .terminalOther d =>
        some ⟨[⟨dest, amount, false, "Transaction failed: " ++ d⟩],
          [min_gas_fee], [base_fee], .failure ("Transaction failed: " ++ d)⟩

/-- One balance entry of the account response: its `asset_type` tag and its
`balance` amount; `none` models an amount string `float()` raises on. -/
structure BalanceEntry where
  asset_type : String
  balance : Option ℚ
deriving DecidableEq, Repr

/-- The account dict returned by the Horizon accounts call. -/
structure Account where
  balances : List BalanceEntry
deriving DecidableEq, Repr

/-- `get_distributor_balance()` (app.py lines 54-64). `acct = none` models
the accounts call raising (network error). The loop returns
`float(balance['balance'])` of the FIRST entry tagged `"native"`; if that
float conversion raises, or no native entry exists (the code raises
"No native balance found"), the `except` swallows the error and returns 0. -/
def get_distributor_balance (acct : Option Account) : ℚ :=
  match acct with
  | none => 0
  | some a =>
    match a.balances.find? (fun b => b.asset_type == "native") with
    | some entry =>
      match entry.balance with
      | some q => q
      | none => 0
    | none => 0

/-- Round-half-to-even to an integer, the rounding Python's `round` uses. -/
def roundHalfEven (x : ℚ) : ℤ :=
  if x - ⌊x⌋ < 1 / 2 then ⌊x⌋
  else if 1 / 2 < x - ⌊x⌋ then ⌊x⌋ + 1
  else if ⌊x⌋ % 2 = 0 then ⌊x⌋ else ⌊x⌋ + 1

/-- Python's `round(x, 7)`: round half-to-even at 7 fractional digits,
modelling the float as an exact rational. -/
def pyRound7 (x : ℚ) : ℚ := (roundHalfEven (x * 10 ^ 7) : ℚ) / 10 ^ 7

/-- Result of one `job()` tick: the balance was non-positive and the tick
skipped sending, or `send_payment` was invoked with the computed amount and
terminated, or it was invoked and never terminated within the script. -/
inductive JobResult where
  | insufficientBalance (logs : List LogEntry)
  | sent (amount : ℚ) (r : SendResult)
  | hung (amount : ℚ)
deriving DecidableEq, Repr

/-- `job()` (app.py lines 151-166): resolve the balance; if it is ≤ 0, log
one "Insufficient balance" failure line and return without sending;
otherwise compute `amount = round(balance * 0.25, 7)` and call
`send_payment` with the default `min_gas_fee` of 100. -/
def job (dest : String) (acct : Option Account) (script : List AttemptEnv) :
    JobResult :=
  let balance := get_distributor_balance acct
  if balance ≤ 0 then
    .insufficientBalance [⟨dest, 0, false, "Insufficient balance"⟩]
  else
    let amount := pyRound7 (balance * (1 / 4))
    match send_payment dest amount script 100 with
    | some r => .sent amount r
    | none => .hung amount

/-- The sink entries a tick produced (a hung send produced none: retryable
attempts do not log). -/
def jobLogs : JobResult → List LogEntry
  | .insufficientBalance l => l
  | .sent _ r => r.logs
  | .hung _ => []

/-- The amount a tick passed to the submitter, when it invoked one. -/
def jobAmount : JobResult → Option ℚ
  | .insufficientBalance _ => none
  | .sent amount _ => some amount
  | .hung amount => some amount

/-! ## Concrete fixtures used in counterexamples and witnesses -/

/-- An exception whose result code is `tx_insufficient_fee`. -/
def insufficientFeeError : StellarError :=
  ⟨none, some ⟨some "tx_insufficient_fee", none⟩, "fee too low"⟩

/-- Attempt: network suggests base fee 100, submission raises
`tx_insufficient_fee`. -/
def insufficientFeeEnv : AttemptEnv := ⟨100, .raised insufficientFeeError⟩

/-- An exception with HTTP status 504 and no extras. -/
def err504 : StellarError := ⟨some 504, none, "gateway timeout"⟩

/-- Attempt: the submission raises a 504 gateway timeout. -/
def env504 : AttemptEnv := ⟨100, .raised err504⟩

/-- A successful response. -/
def successResponse : TxResponse := ⟨true, none, "successful response"⟩

/-- Attempt: the submission returns a successful response. -/
def successEnv : AttemptEnv := ⟨100, .response successResponse⟩

/-- A well-formed but unsuccessful response whose result codes carry the
retryable code `tx_bad_seq`. -/
def badSeqResponse : TxResponse :=
  ⟨false, some ⟨some "tx_bad_seq", none⟩, "response with tx_bad_seq"⟩

/-- An exception with code `tx_failed` whose operation codes CONTAIN
`op_underfunded`, but not in first position. -/
def underfundedSecondError : StellarError :=
  ⟨none, some ⟨some "tx_failed", some ["op_low_reserve", "op_underfunded"]⟩,
    "op failure"⟩

/-- An exception carrying both HTTP status 504 and result codes
`tx_failed` / `op_underfunded`. -/
def underfunded504Error : StellarError :=
  ⟨some 504, some ⟨some "tx_failed", some ["op_underfunded"]⟩, "gw timeout"⟩

/-- Whether an exception hits one of the three branches that retry with the
default fee argument (504, `tx_bad_seq`, `tx_too_late`). -/
def isResetRetryError (e : StellarError) : Bool :=
  e.status == some 504 || txCode e == some "tx_bad_seq" ||
    txCode e == some "tx_too_late"

/-- Whether an attempt outcome triggers a default-fee retry. -/
def attemptResetRetry : AttemptResult → Bool
  | .response _ => false
  | .raised e => isResetRetryError e

/-- The script contains no attempt that triggers a default-fee retry. -/
def noResetScript (script : List AttemptEnv) : Prop :=
  ∀ env ∈ script, attemptResetRetry env.result = false

instance (script : List AttemptEnv) : Decidable (noResetScript script) :=
  List.decidableBAll _ script

/-- Whether some per-operation result code equals `op_underfunded`
(claims C3 and C7 read "an op_underfunded operation code" /
"contain op_underfunded"). -/
def opsContainUnderfunded (e : StellarError) : Bool :=
  match e.resultCodes with
  | some rc =>
    match rc.operations with
    | some ops => ops.contains "op_underfunded"
    | none => false
  | none => false

/-- The classification table as claim C3 states it, first match winning:
clause (6) reads "tx_failed with an op_underfunded operation code", i.e.
some per-operation code equals `op_underfunded`. -/
def claimTable (e : StellarError) (min_gas_fee : Nat) : Action :=
  if e.status = some 504 then .retry504
  else if txCode e = some "tx_bad_seq" then .retryBadSeq
  else if txCode e = some "tx_too_late" then .retryTooLate
  else if txCode e = some "tx_insufficient_fee" ∧ min_gas_fee < 2000 then
    .retryDoubleFee
  else if txCode e = some "tx_insufficient_fee" ∧ 2000 ≤ min_gas_fee then
    .terminalCongestion
  else if txCode e = some "tx_failed" ∧ opsContainUnderfunded e = true then
    .terminalUnderfunded
  else .terminalOther e.detail

/-- The claim's table with clause (6) amended to what the code tests: the
FIRST per-operation code is `op_underfunded`. -/
def claimTableAmended (e : StellarError) (min_gas_fee : Nat) : Action :=
  if e.status = some 504 then .retry504
  else if txCode e = some "tx_bad_seq" then .retryBadSeq
  else if txCode e = some "tx_too_late" then .retryTooLate
  else if txCode e = some "tx_insufficient_fee" ∧ min_gas_fee < 2000 then
    .retryDoubleFee
  else if txCode e = some "tx_insufficient_fee" ∧ 2000 ≤ min_gas_fee then
    .terminalCongestion
  else if txCode e = some "tx_failed" ∧ opsHeadUnderfunded e = true then
    .terminalUnderfunded
  else .terminalOther e.detail

/-- A concrete account response: an issued-asset entry, then the native
entry holding 12.3 XLM. -/
def sampleAccount : Account :=
  ⟨[⟨"credit_alphanum4", some 5⟩, ⟨"native", some (123 / 10)⟩]⟩

/-- An exception with code `tx_failed` and first operation code
`op_underfunded`, as a real underfunded submission produces. -/
def underfundedError : StellarError :=
  ⟨some 400, some ⟨some "tx_failed", some ["op_underfunded"]⟩, "tx failed"⟩

/-! ## Helper lemmas -/

/-- Inversion: the 504 branch fires only on status 504. -/
lemma classify_retry504_status (e : StellarError) (m : Nat)
    (h : classify e m = .retry504) : e.status = some 504 := by
  unfold classify at h
  split_ifs at h <;> simp_all

/-- Inversion: the bad-sequence branch fires only on `tx_bad_seq`. -/
lemma classify_retryBadSeq_code (e : StellarError) (m : Nat)
    (h : classify e m = .retryBadSeq) : txCode e = some "tx_bad_seq" := by
  unfold classify at h
  split_ifs at h <;> simp_all

/-- Inversion: the too-late branch fires only on `tx_too_late`. -/
lemma classify_retryTooLate_code (e : StellarError) (m : Nat)
    (h : classify e m = .retryTooLate) : txCode e = some "tx_too_late" := by
  unfold classify at h
  split_ifs at h <;> simp_all

/-- Every terminating `send_payment` call records its starting
`min_gas_fee` as the first attempt's fee level. -/
lemma send_minFees_head (dest : String) (amount : ℚ) :
    ∀ (script : List AttemptEnv) (m : Nat) (r : SendResult),
      send_payment dest amount script m = some r → r.minFees.head? = some m := by
  intro script
  induction script with
  | nil => intro m r h; simp [send_payment] at h
  | cons env rest ih =>
    intro m r h
    rcases env with ⟨bf, res⟩
    cases res with
    | response resp =>
      by_cases hs : resp.successful <;>
        simp [send_payment, hs] at h <;> subst h <;> rfl
    | raised e =>
      cases hcl : classify e m <;>
        simp [send_payment, hcl, Option.map_eq_some'] at h
      case retry504 | retryBadSeq | retryTooLate | retryDoubleFee =>
        obtain ⟨r', _, rfl⟩ := h
        rfl
      case terminalCongestion | terminalUnderfunded | terminalOther =>
        subst h; rfl

/-- Every terminating `send_payment` call writes exactly one sink entry. -/
lemma send_logs_length (dest : String) (amount : ℚ) :
    ∀ (script : List AttemptEnv) (m : Nat) (r : SendResult),
      send_payment dest amount script m = some r → r.logs.length = 1 := by
  intro script
  induction script with
  | nil => intro m r h; simp [send_payment] at h
  | cons env rest ih =>
    intro m r h
    rcases env with ⟨bf, res⟩
    cases res with
    | response resp =>
      by_cases hs : resp.successful <;>
        simp [send_payment, hs] at h <;> subst h <;> rfl
    | raised e =>
      cases hcl : classify e m <;>
        simp [send_payment, hcl, Option.map_eq_some'] at h
      case retry504 | retryBadSeq | retryTooLate =>
        obtain ⟨r', hr', rfl⟩ := h
        simpa [prependAttempt] using ih 100 r' hr'
      case retryDoubleFee =>
        obtain ⟨r', hr', rfl⟩ := h
        simpa [prependAttempt] using ih (2 * m) r' hr'
      case terminalCongestion | terminalUnderfunded | terminalOther =>
        subst h; rfl

/-- If no attempt takes a default-fee retry branch, the fee level is
non-decreasing across the attempts of one terminating call. -/
lemma send_minFees_chain (dest : String) (amount : ℚ) :
    ∀ (script : List AttemptEnv) (m : Nat) (r : SendResult),
      noResetScript script → send_payment dest amount script m = some r →
      List.Chain' (· ≤ ·) r.minFees := by
  intro script
  induction script with
  | nil => intro m r _ h; simp [send_payment] at h
  | cons env rest ih =>
    intro m r hnr h
    have hnr_rest : noResetScript rest := fun env' h' =>
      hnr env' (List.mem_cons_of_mem _ h')
    rcases env with ⟨bf, res⟩
    cases res with
    | response resp =>
      by_cases hs : resp.successful <;>
        simp [send_payment, hs] at h <;> subst h <;> simp
    | raised e =>
      have hres : isResetRetryError e = false := by
        simpa [attemptResetRetry] using
          hnr ⟨bf, .raised e⟩ (List.mem_cons_self _ _)
      rw [isResetRetryError] at hres
      simp only [Bool.or_eq_false_iff, beq_eq_false_iff_ne, ne_eq] at hres
      cases hcl : classify e m <;>
        simp [send_payment, hcl, Option.map_eq_some'] at h
      case retry504 =>
        exact absurd (classify_retry504_status e m hcl) hres.1.1
      case retryBadSeq =>
        exact absurd (classify_retryBadSeq_code e m hcl) hres.1.2
      case retryTooLate =>
        exact absurd (classify_retryTooLate_code e m hcl) hres.2
      case retryDoubleFee =>
        obtain ⟨r', hr', rfl⟩ := h
        have hchain := ih (2 * m) r' hnr_rest hr'
        have hhead := send_minFees_head dest amount rest (2 * m) r' hr'
        simp only [prependAttempt]
        refine List.Chain'.cons' hchain ?_
        intro y hy
        rw [hhead] at hy
        simp only [Option.mem_def, Option.some.injEq] at hy
        omega
      case terminalCongestion | terminalUnderfunded | terminalOther =>
        subst h; simp

/-! ## Claims -/

/-- Claim C1, corrected. With every attempt failing `tx_insufficient_fee` (network
base fee at the baseline 100), the fee sequence applied is
100, 200, 400, 800, 1600, 3200 and then the call terminates with the
congestion failure: the cap is checked before doubling, so the final
attempt applies fee 3200, exceeding the 2000 cap. -/
theorem send_fee_escalation_overshoots_cap (dest : String) (amount : Rat)
    (rest : List AttemptEnv) :
    send_payment dest amount (List.replicate 6 insufficientFeeEnv ++ rest) 100 =
      some ⟨[⟨dest, amount, false, congestionMsg⟩],
        [100, 200, 400, 800, 1600, 3200], [100, 200, 400, 800, 1600, 3200],
        .failure congestionMsg⟩ := by
  rfl

/-- Claim C1 counterexample: on six scripted `tx_insufficient_fee` failures the
applied fees are [100, 200, 400, 800, 1600, 3200], not
[100, 200, 400, 800, 1600], and an attempt applies a fee above 2000. -/
theorem send_fee_sequence_cex :
    (send_payment "DEST" 1 (List.replicate 6 insufficientFeeEnv) 100).map
        SendResult.feesApplied = some [100, 200, 400, 800, 1600, 3200]
    ∧ ([100, 200, 400, 800, 1600, 3200] : List Nat) ≠ [100, 200, 400, 800, 1600]
    ∧ ∃ fee ∈ ([100, 200, 400, 800, 1600, 3200] : List Nat), 2000 < fee := by
  refine ⟨rfl, by decide, by decide⟩

/-- Claim C10: with every attempt failing `tx_insufficient_fee`, `send_payment`
starting from the default fee 100 terminates exactly when the script offers
at least 6 attempts; it consumes 6 attempts with fee parameter
100, 200, 400, 800, 1600, 3200 and resolves to the terminal congestion
failure. -/
theorem send_insufficient_fee_six_attempts (dest : String) (amount : Rat)
    (k : Nat) :
    ((send_payment dest amount (List.replicate k insufficientFeeEnv) 100).isSome
      ↔ 6 ≤ k)
    ∧ (6 ≤ k →
      (send_payment dest amount (List.replicate k insufficientFeeEnv) 100).map
          SendResult.minFees = some [100, 200, 400, 800, 1600, 3200]
      ∧ (send_payment dest amount (List.replicate k insufficientFeeEnv) 100).map
          SendResult.outcome = some (.failure congestionMsg)) := by
  rcases Nat.lt_or_ge k 6 with hk | hk
  · interval_cases k <;>
      exact ⟨by simp [send_payment, insufficientFeeEnv, insufficientFeeError, classify, txCode], by omega⟩
  · obtain ⟨n, rfl⟩ : ∃ n, k = n + 6 := ⟨k - 6, by omega⟩
    have hsend : send_payment dest amount
        (List.replicate (n + 6) insufficientFeeEnv) 100 =
        some ⟨[⟨dest, amount, false, congestionMsg⟩],
          [100, 200, 400, 800, 1600, 3200], [100, 200, 400, 800, 1600, 3200],
          .failure congestionMsg⟩ := rfl
    rw [hsend]
    exact ⟨by simp, fun _ => ⟨rfl, rfl⟩⟩

theorem send_insufficient_fee_six_attempts_witness :
    6 ≤ 7
    ∧ (send_payment "DEST" 1 (List.replicate 7 insufficientFeeEnv) 100).map
        SendResult.minFees = some [100, 200, 400, 800, 1600, 3200]
    ∧ (send_payment "DEST" 1 (List.replicate 7 insufficientFeeEnv) 100).map
        SendResult.outcome = some (.failure congestionMsg) :=
  ⟨by decide,
    (send_insufficient_fee_six_attempts "DEST" 1 7).2 (by decide)⟩

/-- Claim C2 counterexample: on the mix [tx_insufficient_fee, 504, success] the
fee levels across the attempts of one Send call are [100, 200, 100]: the
504 branch re-invokes `send_payment` without the fee argument, dropping the
level back to the default 100, so the sequence is not non-decreasing. -/
theorem send_fee_monotone_cex :
    (send_payment "DEST" 1 [insufficientFeeEnv, env504, successEnv] 100).map
        SendResult.minFees = some [100, 200, 100]
    ∧ ¬ List.Chain' (· ≤ ·) ([100, 200, 100] : List Nat) :=
  ⟨rfl, by norm_num [List.chain'_cons]⟩

/-- Claim C2, corrected. The fee level is monotonically non-decreasing across the
attempts of one terminating Send call PROVIDED no attempt takes a
504 / `tx_bad_seq` / `tx_too_late` branch — those re-invoke `send_payment`
without the fee argument and reset the level to the default 100; and every
job invocation starts Send at the baseline fee 100. -/
theorem send_fee_monotone_no_reset :
    (∀ (dest : String) (amount : Rat) (script : List AttemptEnv) (m : Nat)
        (r : SendResult),
      noResetScript script → send_payment dest amount script m = some r →
      List.Chain' (· ≤ ·) r.minFees)
    ∧ (∀ (dest : String) (acct : Option Account) (script : List AttemptEnv)
        (amount : Rat) (r : SendResult),
      job dest acct script = .sent amount r → r.minFees.head? = some 100) := by
  constructor
  · intro dest amount script m r hnr h
    exact send_minFees_chain dest amount script m r hnr h
  · intro dest acct script amount r h
    unfold job at h
    by_cases hb : get_distributor_balance acct ≤ 0
    · simp [hb] at h
    · simp only [hb, if_false] at h
      cases hsend : send_payment dest
          (pyRound7 (get_distributor_balance acct * (1 / 4))) script 100 with
      | none => rw [hsend] at h; simp at h
      | some r' =>
        rw [hsend] at h
        simp only [JobResult.sent.injEq] at h
        obtain ⟨_, rfl⟩ := h
        exact send_minFees_head dest _ script 100 r' hsend

theorem send_fee_monotone_no_reset_witness :
    noResetScript [insufficientFeeEnv, successEnv]
    ∧ send_payment "DEST" 1 [insufficientFeeEnv, successEnv] 100 =
        some ⟨[⟨"DEST", 1, true, ""⟩], [100, 200], [100, 200], .success⟩
    ∧ List.Chain' (· ≤ ·)
        (SendResult.minFees ⟨[⟨"DEST", 1, true, ""⟩], [100, 200], [100, 200], .success⟩) :=
  ⟨by decide, rfl,
    send_fee_monotone_no_reset.1 "DEST" 1 [insufficientFeeEnv, successEnv] 100
      ⟨[⟨"DEST", 1, true, ""⟩], [100, 200], [100, 200], .success⟩ (by decide) rfl⟩

/-- Claim C3 counterexample: on a `tx_failed` error whose operation codes are
[op_low_reserve, op_underfunded] — so it carries "an op_underfunded
operation code" — the code takes the catch-all branch and reports the raw
detail, while the claim's table reports insufficient funds. -/
theorem classify_claim_table_cex :
    classify underfundedSecondError 100 = .terminalOther "op failure"
    ∧ claimTable underfundedSecondError 100 = .terminalUnderfunded
    ∧ classify underfundedSecondError 100 ≠ claimTable underfundedSecondError 100 :=
  ⟨rfl, rfl, by decide⟩

/-- Claim C3, corrected. The `except` chain classifies by the claim's priority
table once clause (6) is amended to test the FIRST per-operation code
(the code checks `operations[0] == "op_underfunded"`, not containment). -/
theorem classify_eq_claim_table_amended (e : StellarError) (m : Nat) :
    classify e m = claimTableAmended e m := by
  unfold classify claimTableAmended
  split_ifs <;> simp_all

/-- Claim C4 counterexample: a syntactically well-formed failure response whose
result codes carry the retryable `tx_bad_seq` does not lead to a retry:
the call terminates at the first attempt with a failure logging the raw
response, even though the next scripted attempt would have succeeded. -/
theorem failed_response_not_classified_cex :
    send_payment "DEST" 1 [⟨100, .response badSeqResponse⟩, successEnv] 100 =
      some ⟨[⟨"DEST", 1, false, "Transaction response: response with tx_bad_seq"⟩],
        [100], [100], .failure "Transaction response: response with tx_bad_seq"⟩
    ∧ (send_payment "DEST" 1 [⟨100, .response badSeqResponse⟩, successEnv] 100).map
        (fun r => r.minFees.length) = some 1 :=
  ⟨rfl, rfl⟩

/-- Claim C4, corrected. A well-formed response with `successful = false` is
always terminal: `send_payment` logs one failure carrying the raw response
text and stops after that single attempt, whatever result codes the
response carries — the classification table applies only to raised
errors. -/
theorem failed_response_always_terminal (dest : String) (amount : Rat)
    (bf m : Nat) (resp : TxResponse) (rest : List AttemptEnv)
    (h : resp.successful = false) :
    send_payment dest amount (⟨bf, .response resp⟩ :: rest) m =
      some ⟨[⟨dest, amount, false, "Transaction response: " ++ resp.raw⟩],
        [m], [max bf m], .failure ("Transaction response: " ++ resp.raw)⟩ := by
  simp [send_payment, h]

theorem failed_response_always_terminal_witness :
    badSeqResponse.successful = false
    ∧ send_payment "D" 2 [⟨150, .response badSeqResponse⟩] 100 =
        some ⟨[⟨"D", 2, false, "Transaction response: response with tx_bad_seq"⟩],
          [100], [150], .failure "Transaction response: response with tx_bad_seq"⟩ :=
  ⟨rfl, failed_response_always_terminal "D" 2 150 100 badSeqResponse [] rfl⟩

/-- Claim C5: every terminating `send_payment` call hands exactly one entry to
the logging sink — only the final resolved outcome, never a retryable
intermediate attempt — and no job tick produces more than one sink
entry. -/
theorem terminal_outcome_logged_exactly_once :
    (∀ (dest : String) (amount : Rat) (script : List AttemptEnv) (m : Nat)
        (r : SendResult),
      send_payment dest amount script m = some r → r.logs.length = 1)
    ∧ (∀ (dest : String) (acct : Option Account) (script : List AttemptEnv),
      (jobLogs (job dest acct script)).length ≤ 1) := by
  constructor
  · intro dest amount script m r h
    exact send_logs_length dest amount script m r h
  · intro dest acct script
    unfold job
    by_cases hb : get_distributor_balance acct ≤ 0
    · simp [hb, jobLogs]
    · simp only [hb, if_false]
      cases hsend : send_payment dest
          (pyRound7 (get_distributor_balance acct * (1 / 4))) script 100 with
      | none => simp [jobLogs]
      | some r =>
        simp only [jobLogs]
        rw [send_logs_length dest _ script 100 r hsend]

theorem terminal_outcome_logged_exactly_once_witness :
    send_payment "DEST" 1 [insufficientFeeEnv, successEnv] 100 =
      some ⟨[⟨"DEST", 1, true, ""⟩], [100, 200], [100, 200], .success⟩
    ∧ (SendResult.logs ⟨[⟨"DEST", 1, true, ""⟩], [100, 200], [100, 200],
        Outcome.success⟩).length = 1 :=
  ⟨rfl,
    terminal_outcome_logged_exactly_once.1 "DEST" 1
      [insufficientFeeEnv, successEnv] 100
      ⟨[⟨"DEST", 1, true, ""⟩], [100, 200], [100, 200], .success⟩ rfl⟩

/-- Claim C6: `get_distributor_balance` returns the amount of the balance entry
whose asset-type tag is "native" (the first such entry, as the code's loop
does); it is a total function, and on a failed account fetch, a missing
native entry, or a malformed native amount it returns 0. -/
theorem get_distributor_balance_spec :
    (∀ (a : Account) (entry : BalanceEntry) (q : Rat),
      a.balances.find? (fun b => b.asset_type == "native") = some entry →
      entry.balance = some q → get_distributor_balance (some a) = q)
    ∧ get_distributor_balance none = 0
    ∧ (∀ a : Account,
      a.balances.find? (fun b => b.asset_type == "native") = none →
      get_distributor_balance (some a) = 0)
    ∧ (∀ (a : Account) (entry : BalanceEntry),
      a.balances.find? (fun b => b.asset_type == "native") = some entry →
      entry.balance = none → get_distributor_balance (some a) = 0) := by
  refine ⟨?_, rfl, ?_, ?_⟩
  · intro a entry q hfind hbal
    simp [get_distributor_balance, hfind, hbal]
  · intro a hfind
    simp [get_distributor_balance, hfind]
  · intro a entry hfind hbal
    simp [get_distributor_balance, hfind, hbal]

theorem get_distributor_balance_spec_witness :
    sampleAccount.balances.find? (fun b => b.asset_type == "native") =
      some ⟨"native", some (123 / 10)⟩
    ∧ BalanceEntry.balance ⟨"native", some (123 / 10)⟩ = some (123 / 10)
    ∧ get_distributor_balance (some sampleAccount) = 123 / 10 :=
  ⟨rfl, rfl,
    get_distributor_balance_spec.1 sampleAccount ⟨"native", some (123 / 10)⟩
      (123 / 10) rfl rfl⟩

/-- Claim C7 counterexample: two errors on which the claim fails. First, a
`tx_failed` error whose per-operation codes CONTAIN `op_underfunded` (in
second position) is logged through the catch-all branch with the raw
detail, not the insufficient-funds message. Second, an error carrying
result codes `tx_failed` / `[op_underfunded]` together with HTTP status
504 is retried (the 504 branch wins), not terminal with zero retries. -/
theorem underfunded_terminal_cex :
    (send_payment "DEST" 1 [⟨100, .raised underfundedSecondError⟩] 100).map
        SendResult.outcome = some (.failure "Transaction failed: op failure")
    ∧ "Transaction failed: op failure" ≠ underfundedMsg
    ∧ (send_payment "DEST" 1 [⟨100, .raised underfunded504Error⟩, successEnv] 100).map
        SendResult.outcome = some Outcome.success
    ∧ (send_payment "DEST" 1 [⟨100, .raised underfunded504Error⟩, successEnv] 100).map
        (fun r => r.minFees.length) = some 2 :=
  ⟨rfl, by decide, rfl, rfl⟩

/-- Claim C7, corrected. For an error that is not classified as a 504 timeout,
whose transaction result code is `tx_failed`, and whose FIRST per-operation
code is `op_underfunded`, Send terminates at that attempt with the
insufficient-funds failure message and performs zero retries. -/
theorem underfunded_first_op_terminal (dest : String) (amount : Rat)
    (bf m : Nat) (e : StellarError) (rest : List AttemptEnv)
    (h504 : e.status ≠ some 504)
    (htx : txCode e = some "tx_failed")
    (hops : opsHeadUnderfunded e = true) :
    send_payment dest amount (⟨bf, .raised e⟩ :: rest) m =
      some ⟨[⟨dest, amount, false, underfundedMsg⟩], [m], [max bf m],
        .failure underfundedMsg⟩ := by
  have hcl : classify e m = .terminalUnderfunded := by
    unfold classify
    rw [if_neg h504, if_neg (by simp [htx]), if_neg (by simp [htx]),
      if_neg (by simp [htx]), if_pos ⟨htx, hops⟩]
  simp [send_payment, hcl]

theorem underfunded_first_op_terminal_witness :
    underfundedError.status ≠ some 504
    ∧ txCode underfundedError = some "tx_failed"
    ∧ opsHeadUnderfunded underfundedError = true
    ∧ send_payment "DEST" 1 [⟨100, .raised underfundedError⟩] 100 =
        some ⟨[⟨"DEST", 1, false, underfundedMsg⟩], [100], [100],
          .failure underfundedMsg⟩ :=
  ⟨by decide, rfl, rfl,
    underfunded_first_op_terminal "DEST" 1 100 100 underfundedError []
      (by decide) rfl rfl⟩

/-- Claim C8: on a tick whose resolved balance is ≤ 0, the job logs exactly one
"Insufficient balance" sink entry and never invokes `send_payment`. -/
theorem job_insufficient_balance_skips_send (dest : String)
    (acct : Option Account) (script : List AttemptEnv)
    (h : get_distributor_balance acct ≤ 0) :
    job dest acct script =
      .insufficientBalance [⟨dest, 0, false, "Insufficient balance"⟩]
    ∧ ∀ (amount : Rat) (r : SendResult), job dest acct script ≠ .sent amount r := by
  have hj : job dest acct script =
      .insufficientBalance [⟨dest, 0, false, "Insufficient balance"⟩] := by
    simp [job, h]
  exact ⟨hj, fun amount r hc => by rw [hj] at hc; simp at hc⟩

theorem job_insufficient_balance_skips_send_witness :
    get_distributor_balance none ≤ 0
    ∧ job "RECEIVER" none [] =
        .insufficientBalance [⟨"RECEIVER", 0, false, "Insufficient balance"⟩] :=
  ⟨le_of_eq rfl,
    (job_insufficient_balance_skips_send "RECEIVER" none [] (le_of_eq rfl)).1⟩

/-- Round-half-even moves a value up by at most one half. -/
lemma roundHalfEven_le (x : ℚ) : (roundHalfEven x : ℚ) ≤ x + 1 / 2 := by
  have hf : (⌊x⌋ : ℚ) ≤ x := Int.floor_le x
  unfold roundHalfEven
  split_ifs with h1 h2 h3
  · linarith
  · push_cast
    linarith
  · linarith
  · have hx : x - ⌊x⌋ = 1 / 2 := le_antisymm (not_lt.mp h2) (not_lt.mp h1)
    push_cast
    linarith

/-- Round-half-even sends [0, 1/2) to 0. -/
lemma roundHalfEven_of_nonneg_lt_half (x : ℚ) (h0 : 0 ≤ x) (h : x < 1 / 2) :
    roundHalfEven x = 0 := by
  have hfl : ⌊x⌋ = 0 :=
    Int.floor_eq_zero_iff.mpr (Set.mem_Ico.mpr ⟨h0, by linarith⟩)
  unfold roundHalfEven
  rw [hfl, if_pos (by push_cast; linarith)]

/-- A quarter of a positive balance, rounded to 7 decimals half-to-even,
never exceeds the balance. -/
lemma pyRound7_quarter_le (B : Rat) (hB : 0 < B) :
    pyRound7 (B * (1 / 4)) ≤ B := by
  unfold pyRound7
  rcases le_or_lt (1 / 15000000 : Rat) B with h | h
  · rw [div_le_iff₀ (by norm_num : (0 : Rat) < 10 ^ 7)]
    have h1 : (roundHalfEven (B * (1 / 4) * 10 ^ 7) : Rat) ≤
        B * (1 / 4) * 10 ^ 7 + 1 / 2 := roundHalfEven_le _
    nlinarith
  · have hx0 : (0 : Rat) ≤ B * (1 / 4) * 10 ^ 7 := by positivity
    have hxlt : B * (1 / 4) * 10 ^ 7 < 1 / 2 := by nlinarith
    rw [roundHalfEven_of_nonneg_lt_half _ hx0 hxlt]
    norm_num
    linarith

/-- Claim C9: on a tick with positive resolved balance B, the amount handed to
the submitter is exactly `round(B * 0.25, 7)` (0.25 being exactly 1/4),
and that amount never exceeds B. -/
theorem job_amount_quarter_round_le (dest : String) (acct : Option Account)
    (script : List AttemptEnv)
    (h : 0 < get_distributor_balance acct) :
    jobAmount (job dest acct script) =
      some (pyRound7 (get_distributor_balance acct * (1 / 4)))
    ∧ pyRound7 (get_distributor_balance acct * (1 / 4)) ≤
        get_distributor_balance acct := by
  refine ⟨?_, pyRound7_quarter_le _ h⟩
  have hb : ¬ get_distributor_balance acct ≤ 0 := not_le.mpr h
  unfold job
  simp only [hb, if_false]
  cases hsend : send_payment dest
      (pyRound7 (get_distributor_balance acct * (1 / 4))) script 100 <;>
    simp [jobAmount, hsend]

theorem job_amount_quarter_round_le_witness :
    0 < get_distributor_balance (some sampleAccount)
    ∧ jobAmount (job "RECEIVER" (some sampleAccount) []) =
        some (pyRound7 (get_distributor_balance (some sampleAccount) * (1 / 4)))
    ∧ pyRound7 (get_distributor_balance (some sampleAccount) * (1 / 4)) ≤
        get_distributor_balance (some sampleAccount) := by
  have hb : get_distributor_balance (some sampleAccount) = 123 / 10 := rfl
  have hpos : 0 < get_distributor_balance (some sampleAccount) := by
    rw [hb]
    norm_num
  exact ⟨hpos, job_amount_quarter_round_le "RECEIVER" (some sampleAccount) [] hpos⟩

end XlmBot
